import Mathlib

/-! # blink.c : eye-pair detection, eye tracking and blink classification

A shallow embedding of `src/blink.c` and the properties of its four pieces of
own logic: `is_eye_pair`, `locate_eye`, `is_blink` and the two-stage loop of
`main`.

Modelling conventions.

* A C `int` is a Lean `Int`.  The rectangles the program handles are blob
  bounding boxes, search windows and eye boxes of a camera frame, so every
  intermediate value stays far inside the 32-bit range; signed overflow (which
  C leaves undefined) is outside the model.
* C `/` on `int` truncates toward zero: `Int.tdiv`.  A division whose divisor
  is a variable goes through `c_div`, which has no result for a zero divisor.
* A chain of contours (`CvSeq*` linked by `h_next`) is the list of the bounding
  rectangles `cvBoundingRect` reports for them; the null pointer is `[]`.  The
  contour count `num` stays a separate argument, as in the source.
* Output parameters are passed in and returned: a function that leaves `*eye`
  untouched returns the value it was given.
* Everything computed by the vision library (connected components, template
  matching, key polling) is an input of the model.  The matching score is a
  `double` in the source and a rational number here.
-/

namespace Blink

/-! ## Data model -/

/-- The OpenCV rectangle `CvRect`: top-left corner and size. -/
structure CvRect where
  x : Int
  y : Int
  width : Int
  height : Int
deriving DecidableEq, Repr

/-- The OpenCV point `CvPoint`. -/
structure CvPoint where
  x : Int
  y : Int
deriving DecidableEq, Repr

/-- The header fields of an `IplImage` that blink.c reads. -/
structure IplImage where
  width : Int
  height : Int
deriving DecidableEq, Repr

/-- Constructor `cvRect(x, y, width, height)`. -/
def cvRect (x y width height : Int) : CvRect := ⟨x, y, width, height⟩

/-- Constructor `cvPoint(x, y)`. -/
def cvPoint (x y : Int) : CvPoint := ⟨x, y⟩

/-! ## Constants (blink.c lines 17-25)

`WIN_WIDTH` and `WIN_HEIGHT` are unparenthesised macros (`TPL_WIDTH * 2`).  At
each of their uses (`point.x - WIN_WIDTH / 2`, an argument of `cvRect`) the
textual expansion parses to the same value as the definition below, because
`*` and `/` associate to the left: `16 * 2 / 2 = (16 * 2) / 2`. -/

def FRAME_WIDTH : Int := 240
def FRAME_HEIGHT : Int := 180
def TPL_WIDTH : Int := 16
def TPL_HEIGHT : Int := 12
def WIN_WIDTH : Int := TPL_WIDTH * 2
def WIN_HEIGHT : Int := TPL_HEIGHT * 2
def TM_THRESHOLD : ℚ := 4 / 10
def STAGE_INIT : Int := 1
def STAGE_TRACKING : Int := 2

/-- The character constant `'r'`. -/
def KEY_r : Int := 114

/-! ## C arithmetic -/

/-- The libc function `abs` on `int`. -/
def c_abs (a : Int) : Int := if a < 0 then -a else a

/-- C integer division by a variable divisor: truncation toward zero, and no
result when the divisor is zero. -/
def c_div (a b : Int) : Option Int := if b = 0 then none else some (Int.tdiv a b)

/-! ## is_eye_pair (blink.c lines 185-231) -/

/-- Function `is_eye_pair(comp, num, &eye)`: the return value together with the
new content of `*eye`; `none` when the function divides by zero. -/
def is_eye_pair (comp : List CvRect) (num : Int) (eye : CvRect) : Option (Int × CvRect) :=
  match comp with
  | [] => some (0, eye)
  | r1 :: comp1 =>
    if num ≠ 2 then some (0, eye) else
    match comp1 with
    | [] => some (0, eye)
    | r2 :: _ =>
      if c_abs (r1.width - r2.width) ≥ 5 then some (0, eye) else
      if c_abs (r1.height - r2.height) ≥ 5 then some (0, eye) else
      if c_abs (r1.y - r2.y) ≥ 5 then some (0, eye) else
      match c_div (c_abs (r1.x - r2.x)) r1.width with
      | none => none
      | some dist_ratio =>
        if dist_ratio < 2 ∨ dist_ratio > 5 then some (0, eye) else
        let point := cvPoint (r1.x + Int.tdiv r1.width 2) (r1.y + Int.tdiv r1.height 2)
        some (1, cvRect (point.x - Int.tdiv TPL_WIDTH 2) (point.y - Int.tdiv TPL_HEIGHT 2)
                        TPL_WIDTH TPL_HEIGHT)

/-! ## locate_eye (blink.c lines 244-313) -/

/-- The search window `win` that `locate_eye` sets up and clamps
(lines 253-277). -/
def search_window (img : IplImage) (eye : CvRect) : CvRect :=
  let point := cvPoint (eye.x + Int.tdiv eye.width 2) (eye.y + Int.tdiv eye.height 2)
  let win := cvRect (point.x - Int.tdiv WIN_WIDTH 2) (point.y - Int.tdiv WIN_HEIGHT 2)
                    WIN_WIDTH WIN_HEIGHT
  let win := if win.x < 0 then { win with x := 0 } else win
  let win := if win.y < 0 then { win with y := 0 } else win
  let win := if win.x + win.width > img.width then { win with x := img.width - win.width } else win
  let win := if win.y + win.height > img.height then { win with y := img.height - win.height } else win
  win

/-- Function `locate_eye(img, tpl, &window, &eye)`: the return value and the new
contents of `*window` and `*eye`.  `minval` and `minloc` are what
`cvMatchTemplate` and `cvMinMaxLoc` report for the search window; the result
image `tm` and the template serve only those two calls. -/
def locate_eye (img : IplImage) (minval : ℚ) (minloc : CvPoint) (window eye : CvRect) :
    Int × CvRect × CvRect :=
  let win := search_window img eye
  if minval > TM_THRESHOLD then (0, window, eye) else
  (1, win, cvRect (win.x + minloc.x) (win.y + minloc.y) TPL_WIDTH TPL_HEIGHT)

/-! ## is_blink (blink.c lines 315-346) -/

/-- Function `is_blink(comp, num, window, eye)`. -/
def is_blink (comp : List CvRect) (num : Int) (window eye : CvRect) : Int :=
  match comp with
  | [] => 0
  | r1 :: _ =>
    if num ≠ 1 then 0 else
    if r1.x < window.x then 0 else
    if r1.y < window.y then 0 else
    if r1.x + r1.width > window.x + window.width then 0 else
    if r1.y + r1.height > window.y + window.height then 0 else
    let pt := cvPoint (eye.x + Int.tdiv eye.width 2) (eye.y + Int.tdiv eye.height 2)
    if pt.x ≤ r1.x ∨ pt.x ≥ r1.x + r1.width then 0 else
    if pt.y ≤ r1.y ∨ pt.y ≥ r1.y + r1.height then 0 else
    1

/-! ## The loop of main (blink.c lines 82-127) -/

/-- The local variables of `main` that live across iterations, and two
counters that record the loop's observable events. -/
structure State where
  stage : Int
  window : CvRect
  eye : CvRect
  key : Int
  text_delay : Int
  /-- Number of executions of line 104 (`stage = STAGE_TRACKING`). -/
  entered : Nat
  /-- Number of executions of line 117 (the external `blinked.sh` command). -/
  notified : Nat
deriving DecidableEq, Repr

/-- What the library calls of one iteration deliver. -/
structure Frame where
  /-- Size of the captured frame, which is also the size of `gray`. -/
  img : IplImage
  /-- Contour chain and count returned by `get_connected_components`. -/
  comp : List CvRect
  nc : Int
  /-- Best score and its location found by template matching. -/
  minval : ℚ
  minloc : CvPoint
  /-- Value returned by `cvWaitKey(15)` at the end of the iteration. -/
  key : Int

/-- The text countdown of macro `DRAW_TEXT`: `if (d) { ...; d--; }`. -/
def DRAW_TEXT (d : Int) : Int := if d ≠ 0 then d - 1 else d

/-- Lines 89-106 of one iteration: the search window of the INIT stage and the
eye-pair detection (`&&` evaluates `is_eye_pair` only in stage INIT). -/
def init_stage (s : State) (f : Frame) : Option State :=
  let window := if s.stage = STAGE_INIT then cvRect 0 0 f.img.width f.img.height else s.window
  if s.stage = STAGE_INIT then
    match is_eye_pair f.comp f.nc s.eye with
    | none => none
    | some (ret, eye) =>
      if ret ≠ 0 then
        some { s with window := window, eye := eye, stage := STAGE_TRACKING, text_delay := 10,
                      entered := s.entered + 1 }
      else some { s with window := window, eye := eye }
  else some { s with window := window }

/-- Lines 108-121 of one iteration. -/
def tracking_stage (s : State) (f : Frame) : State :=
  if s.stage = STAGE_TRACKING then
    let r := locate_eye f.img f.minval f.minloc s.window s.eye
    let found := r.1
    let window := r.2.1
    let eye := r.2.2
    let stage := if found = 0 ∨ s.key = KEY_r then STAGE_INIT else s.stage
    let blink := is_blink f.comp f.nc window eye
    let text_delay := if blink ≠ 0 then 10 else s.text_delay
    let notified := if blink ≠ 0 then s.notified + 1 else s.notified
    { s with stage := stage, window := window, eye := eye,
             text_delay := DRAW_TEXT text_delay, notified := notified }
  else s

/-- One iteration of the `while` loop of `main`; `none` when the iteration
divides by zero inside `is_eye_pair`. -/
def loop_body (s : State) (f : Frame) : Option State :=
  match init_stage s f with
  | none => none
  | some s1 => some { tracking_stage s1 f with key := f.key }

/-- Successive iterations of the loop, one per element of the list.  The loop
condition `key != 'q'` only decides whether a further iteration takes place;
the list holds the iterations that do. -/
def run (s : State) : List Frame → Option State
  | [] => some s
  | f :: fs =>
    match loop_body s f with
    | none => none
    | some s1 => run s1 fs

/-- The value of the variable `key` after the iterations on the given frames,
when it was `k` before them. -/
def key_after (k : Int) : List Frame → Int
  | [] => k
  | f :: fs => key_after f.key fs

/-- Every iteration on the given frames keeps tracking: `locate_eye` reports
found (the score is at most TM_THRESHOLD) and the key read before the iteration
is not `'r'`; `k` is the value of `key` before the first of them. -/
def Tracked (k : Int) : List Frame → Prop
  | [] => True
  | f :: fs => f.minval ≤ TM_THRESHOLD ∧ k ≠ KEY_r ∧ Tracked f.key fs

/-- The eye rectangle has the template size whenever the stage is TRACKING. -/
def eye_size_ok (s : State) : Prop :=
  s.stage = STAGE_TRACKING → s.eye.width = TPL_WIDTH ∧ s.eye.height = TPL_HEIGHT

/-! ## Geometry used by the statements -/

/-- Rectangle `r` lies wholly inside rectangle `outer` (its top-left corner
`POINT_TL` and bottom-right corner `POINT_BR` are within `outer`). -/
def CvRect.inside (r outer : CvRect) : Prop :=
  outer.x ≤ r.x ∧ outer.y ≤ r.y ∧
  r.x + r.width ≤ outer.x + outer.width ∧ r.y + r.height ≤ outer.y + outer.height

instance (r outer : CvRect) : Decidable (r.inside outer) := by
  unfold CvRect.inside; infer_instance

/-! ## Arithmetic lemmas -/

theorem c_abs_eq (a : Int) : c_abs a = |a| := by
  unfold c_abs
  split
  · rw [abs_of_neg (by assumption)]
  · rw [abs_of_nonneg (by omega)]

theorem c_div_of_ne_zero (a b : Int) (hb : b ≠ 0) : c_div a b = some (Int.tdiv a b) := by
  simp [c_div, hb]

theorem tdiv_two_le_iff (d w : Int) (hd : 0 ≤ d) (hw : 1 ≤ w) :
    2 ≤ Int.tdiv d w ↔ 2 * w ≤ d := by
  rw [Int.tdiv_eq_ediv hd (by omega), Int.le_ediv_iff_mul_le (by omega)]

theorem tdiv_le_five_iff (d w : Int) (hd : 0 ≤ d) (hw : 1 ≤ w) :
    Int.tdiv d w ≤ 5 ↔ d ≤ 6 * w - 1 := by
  rw [Int.tdiv_eq_ediv hd (by omega)]
  have h := Int.ediv_lt_iff_lt_mul (a := d) (b := 6) (c := w) (by omega)
  constructor
  · intro h5
    have := h.1 (by omega)
    omega
  · intro h6
    have := h.2 (by omega)
    omega

/-- The eye rectangle `is_eye_pair` builds around the centroid of `r1`
(lines 216-228), with the constants evaluated. -/
theorem is_eye_pair_of_checks (r1 r2 : CvRect) (rest : List CvRect) (eye : CvRect)
    (hw1 : r1.width ≠ 0)
    (hw : |r1.width - r2.width| < 5) (hh : |r1.height - r2.height| < 5)
    (hy : |r1.y - r2.y| < 5) :
    is_eye_pair (r1 :: r2 :: rest) 2 eye =
      if Int.tdiv |r1.x - r2.x| r1.width < 2 ∨ Int.tdiv |r1.x - r2.x| r1.width > 5 then
        some (0, eye)
      else
        some (1, ⟨r1.x + Int.tdiv r1.width 2 - 8, r1.y + Int.tdiv r1.height 2 - 6, 16, 12⟩) := by
  have e8 : Int.tdiv TPL_WIDTH 2 = 8 := by decide
  have e6 : Int.tdiv TPL_HEIGHT 2 = 6 := by decide
  simp only [is_eye_pair, c_abs_eq, c_div_of_ne_zero _ _ hw1, cvPoint, cvRect, e8, e6]
  simp [not_le.mpr hw, not_le.mpr hh, not_le.mpr hy, TPL_WIDTH, TPL_HEIGHT]

/-- What an accepting call of `is_eye_pair` says about its arguments and about
the rectangle it stores. -/
theorem is_eye_pair_eq_one (comp : List CvRect) (num : Int) (eye e : CvRect)
    (h : is_eye_pair comp num eye = some (1, e)) :
    ∃ r1 r2 rest, comp = r1 :: r2 :: rest ∧ num = 2 ∧
      e = ⟨r1.x + Int.tdiv r1.width 2 - 8, r1.y + Int.tdiv r1.height 2 - 6, 16, 12⟩ := by
  match comp with
  | [] => simp [is_eye_pair] at h
  | [r1] =>
    unfold is_eye_pair at h
    split_ifs at h <;> simp at h
  | r1 :: r2 :: rest =>
    refine ⟨r1, r2, rest, rfl, ?_⟩
    by_cases hn : num = 2
    swap
    · simp [is_eye_pair, hn] at h
    subst hn
    refine ⟨rfl, ?_⟩
    by_cases hw : 5 ≤ |r1.width - r2.width|
    · simp [is_eye_pair, c_abs_eq, hw] at h
    by_cases hh : 5 ≤ |r1.height - r2.height|
    · simp [is_eye_pair, c_abs_eq, hh] at h
    by_cases hy : 5 ≤ |r1.y - r2.y|
    · simp [is_eye_pair, c_abs_eq, hy] at h
    by_cases hw0 : r1.width = 0
    · simp [is_eye_pair, c_abs_eq, hw, hh, hy, c_div, hw0] at h
    rw [is_eye_pair_of_checks r1 r2 rest eye hw0 (not_le.mp hw) (not_le.mp hh)
      (not_le.mp hy)] at h
    split_ifs at h
    · simp at h
    · simp only [Option.some.injEq, Prod.mk.injEq, true_and] at h
      exact h.symm

/-- Lines 96-106 when the eye pair is detected in stage INIT. -/
theorem init_stage_accept (s : State) (f : Frame) (e : CvRect) (hs : s.stage = STAGE_INIT)
    (he : is_eye_pair f.comp f.nc s.eye = some (1, e)) :
    init_stage s f = some { s with window := cvRect 0 0 f.img.width f.img.height,
                                   eye := e, stage := STAGE_TRACKING, text_delay := 10,
                                   entered := s.entered + 1 } := by
  simp [init_stage, hs, he]

/-- The return value of `is_eye_pair` is 0 or 1, and with 0 the eye rectangle
is the one passed in. -/
theorem is_eye_pair_ret (comp : List CvRect) (num : Int) (eye e : CvRect) (ret : Int)
    (h : is_eye_pair comp num eye = some (ret, e)) : (ret = 0 ∧ e = eye) ∨ ret = 1 := by
  unfold is_eye_pair at h
  split at h
  · simp only [Option.some.injEq, Prod.mk.injEq] at h
    exact Or.inl ⟨h.1.symm, h.2.symm⟩
  · split_ifs at h
    · simp only [Option.some.injEq, Prod.mk.injEq] at h
      exact Or.inl ⟨h.1.symm, h.2.symm⟩
    · split at h
      · simp only [Option.some.injEq, Prod.mk.injEq] at h
        exact Or.inl ⟨h.1.symm, h.2.symm⟩
      · split_ifs at h
        · simp only [Option.some.injEq, Prod.mk.injEq] at h
          exact Or.inl ⟨h.1.symm, h.2.symm⟩
        · simp only [Option.some.injEq, Prod.mk.injEq] at h
          exact Or.inl ⟨h.1.symm, h.2.symm⟩
        · simp only [Option.some.injEq, Prod.mk.injEq] at h
          exact Or.inl ⟨h.1.symm, h.2.symm⟩
        · split at h
          · exact absurd h (by simp)
          · split_ifs at h
            · simp only [Option.some.injEq, Prod.mk.injEq] at h
              exact Or.inl ⟨h.1.symm, h.2.symm⟩
            · simp only [Option.some.injEq, Prod.mk.injEq] at h
              exact Or.inr h.1.symm

/-! ## is_eye_pair: acceptance, rejection, truncation, no clamping -/

/-- C1: two blobs whose widths, heights and y coordinates each differ by less
than 5 and whose horizontal distance divided by the width of the first (at
least 1) is between 2 and 5 are accepted by `is_eye_pair` called with
`num = 2`, and the eye rectangle is the TPL_WIDTH x TPL_HEIGHT = 16 x 12
rectangle centred on the centroid of the first blob (the halved height is C's
truncating quotient). -/
theorem is_eye_pair_accepts (r1 r2 : CvRect) (rest : List CvRect) (eye : CvRect)
    (hw1 : 1 ≤ r1.width)
    (hw : |r1.width - r2.width| < 5) (hh : |r1.height - r2.height| < 5)
    (hy : |r1.y - r2.y| < 5)
    (hlo : 2 ≤ |r1.x - r2.x| / r1.width) (hhi : |r1.x - r2.x| / r1.width ≤ 5) :
    is_eye_pair (r1 :: r2 :: rest) 2 eye =
      some (1, ⟨r1.x + r1.width / 2 - 8, r1.y + Int.tdiv r1.height 2 - 6, 16, 12⟩) ∧
    TPL_WIDTH = 16 ∧ TPL_HEIGHT = 12 := by
  have hq : Int.tdiv |r1.x - r2.x| r1.width = |r1.x - r2.x| / r1.width :=
    Int.tdiv_eq_ediv (abs_nonneg _) (by omega)
  have hwid : Int.tdiv r1.width 2 = r1.width / 2 := Int.tdiv_eq_ediv (by omega) (by omega)
  refine ⟨?_, rfl, rfl⟩
  rw [is_eye_pair_of_checks r1 r2 rest eye (by omega) hw hh hy, hq, if_neg (by omega), hwid]

/-- The scenario of C1: blobs (10,10,20,30) and (70,10,20,30) give
accept with eye rectangle (12,19,16,12). -/
theorem is_eye_pair_accepts_witness :
    is_eye_pair [⟨10, 10, 20, 30⟩, ⟨70, 10, 20, 30⟩] 2 ⟨0, 0, 0, 0⟩ =
      some (1, ⟨12, 19, 16, 12⟩) :=
  (is_eye_pair_accepts ⟨10, 10, 20, 30⟩ ⟨70, 10, 20, 30⟩ [] ⟨0, 0, 0, 0⟩
    (by decide) (by decide) (by decide) (by decide) (by decide) (by decide)).1

/-- C2: `is_eye_pair` returns 0 and leaves the eye rectangle alone as soon as
one rule fails: the count is not 2, a component is missing, the widths, the
heights or the y coordinates differ by 5 or more, or the truncated ratio of
the horizontal distance to the width of the first blob (a nonzero width, so
that the ratio exists) is below 2 or above 5. -/
theorem is_eye_pair_rejects (comp : List CvRect) (num : Int) (eye : CvRect)
    (h : num ≠ 2 ∨ comp.length < 2 ∨
      ∃ r1 r2 rest, comp = r1 :: r2 :: rest ∧
        (5 ≤ |r1.width - r2.width| ∨ 5 ≤ |r1.height - r2.height| ∨ 5 ≤ |r1.y - r2.y| ∨
          (r1.width ≠ 0 ∧
            (Int.tdiv |r1.x - r2.x| r1.width < 2 ∨ 5 < Int.tdiv |r1.x - r2.x| r1.width)))) :
    is_eye_pair comp num eye = some (0, eye) := by
  rcases h with h | h | ⟨r1, r2, rest, rfl, h⟩
  · cases comp with
    | nil => rfl
    | cons r1 t => simp [is_eye_pair, h]
  · match comp, h with
    | [], _ => rfl
    | [r1], _ => simp [is_eye_pair]
  · by_cases hn : num = 2
    · subst hn
      by_cases hw : 5 ≤ |r1.width - r2.width|
      · simp [is_eye_pair, c_abs_eq, hw]
      by_cases hh : 5 ≤ |r1.height - r2.height|
      · simp [is_eye_pair, c_abs_eq, hh]
      by_cases hy : 5 ≤ |r1.y - r2.y|
      · simp [is_eye_pair, c_abs_eq, hy]
      rcases h with h | h | h | ⟨hw0, h⟩
      · exact absurd h hw
      · exact absurd h hh
      · exact absurd h hy
      · rw [is_eye_pair_of_checks r1 r2 rest eye hw0 (not_le.mp hw) (not_le.mp hh)
          (not_le.mp hy), if_pos h]
    · simp [is_eye_pair, hn]

/-- The boundary cases of C2: a ratio of exactly 1 (distance 10 at width 10)
and a ratio of exactly 6 (distance 60 at width 10) are rejected. -/
theorem is_eye_pair_rejects_witness :
    is_eye_pair [⟨0, 0, 10, 10⟩, ⟨10, 0, 10, 10⟩] 2 ⟨1, 2, 3, 4⟩ = some (0, ⟨1, 2, 3, 4⟩) ∧
    is_eye_pair [⟨0, 0, 10, 10⟩, ⟨60, 0, 10, 10⟩] 2 ⟨1, 2, 3, 4⟩ = some (0, ⟨1, 2, 3, 4⟩) :=
  ⟨is_eye_pair_rejects _ 2 _
      (Or.inr (Or.inr ⟨⟨0, 0, 10, 10⟩, ⟨10, 0, 10, 10⟩, [], rfl, by decide⟩)),
   is_eye_pair_rejects _ 2 _
      (Or.inr (Or.inr ⟨⟨0, 0, 10, 10⟩, ⟨60, 0, 10, 10⟩, [], rfl, by decide⟩))⟩

/-- C9: the other rules being satisfied and the first width being at least 1,
the horizontal-distance test passes exactly when
`2 * width ≤ distance ≤ 6 * width - 1`, the effect of the truncating integer
division; `is_eye_pair` then accepts, and rejects otherwise. -/
theorem is_eye_pair_dist_ratio_truncates (r1 r2 : CvRect) (rest : List CvRect) (eye : CvRect)
    (hw1 : 1 ≤ r1.width)
    (hw : |r1.width - r2.width| < 5) (hh : |r1.height - r2.height| < 5)
    (hy : |r1.y - r2.y| < 5) :
    (¬ (Int.tdiv |r1.x - r2.x| r1.width < 2 ∨ Int.tdiv |r1.x - r2.x| r1.width > 5) ↔
      2 * r1.width ≤ |r1.x - r2.x| ∧ |r1.x - r2.x| ≤ 6 * r1.width - 1) ∧
    is_eye_pair (r1 :: r2 :: rest) 2 eye =
      if 2 * r1.width ≤ |r1.x - r2.x| ∧ |r1.x - r2.x| ≤ 6 * r1.width - 1 then
        some (1, ⟨r1.x + Int.tdiv r1.width 2 - 8, r1.y + Int.tdiv r1.height 2 - 6, 16, 12⟩)
      else some (0, eye) := by
  have h2 := tdiv_two_le_iff |r1.x - r2.x| r1.width (abs_nonneg _) hw1
  have h5 := tdiv_le_five_iff |r1.x - r2.x| r1.width (abs_nonneg _) hw1
  have key : ¬ (Int.tdiv |r1.x - r2.x| r1.width < 2 ∨ Int.tdiv |r1.x - r2.x| r1.width > 5) ↔
      2 * r1.width ≤ |r1.x - r2.x| ∧ |r1.x - r2.x| ≤ 6 * r1.width - 1 := by
    rw [not_or, not_lt, gt_iff_lt, not_lt, h2, h5]
  refine ⟨key, ?_⟩
  rw [is_eye_pair_of_checks r1 r2 rest eye (by omega) hw hh hy]
  by_cases hc : 2 * r1.width ≤ |r1.x - r2.x| ∧ |r1.x - r2.x| ≤ 6 * r1.width - 1
  · rw [if_pos hc, if_neg (key.mpr hc)]
  · rw [if_neg hc, if_pos (not_not.mp (fun hn => hc (key.mp hn)))]

/-- The two examples of C9 at width 10: distance 19 (fractional ratio
1.9) is rejected, distance 59 (fractional ratio 5.9) is accepted. -/
theorem is_eye_pair_dist_ratio_truncates_witness :
    is_eye_pair [⟨0, 0, 10, 10⟩, ⟨19, 0, 10, 10⟩] 2 ⟨1, 2, 3, 4⟩ = some (0, ⟨1, 2, 3, 4⟩) ∧
    is_eye_pair [⟨0, 0, 10, 10⟩, ⟨59, 0, 10, 10⟩] 2 ⟨1, 2, 3, 4⟩ = some (1, ⟨-3, -1, 16, 12⟩) :=
  ⟨(is_eye_pair_dist_ratio_truncates ⟨0, 0, 10, 10⟩ ⟨19, 0, 10, 10⟩ [] ⟨1, 2, 3, 4⟩
      (by decide) (by decide) (by decide) (by decide)).2,
   (is_eye_pair_dist_ratio_truncates ⟨0, 0, 10, 10⟩ ⟨59, 0, 10, 10⟩ [] ⟨1, 2, 3, 4⟩
      (by decide) (by decide) (by decide) (by decide)).2⟩

/-- C10: `is_eye_pair` does not clamp the rectangle it returns.  The blobs
(0,0,4,4) and (10,0,4,4) lie inside the 240 x 180 frame and are accepted with
eye rectangle (-6,-4,16,12), which is not inside the frame; the loop of `main`
stores that rectangle as it is when it enters TRACKING.  In general the
returned rectangle lies inside a W x H frame exactly when the centroid
(cx, cy) of the first blob has `8 ≤ cx ≤ W - 8` and `6 ≤ cy ≤ H - 6`. -/
theorem is_eye_pair_not_clamped :
    ((⟨0, 0, 4, 4⟩ : CvRect).inside (cvRect 0 0 FRAME_WIDTH FRAME_HEIGHT) ∧
      (⟨10, 0, 4, 4⟩ : CvRect).inside (cvRect 0 0 FRAME_WIDTH FRAME_HEIGHT) ∧
      is_eye_pair [⟨0, 0, 4, 4⟩, ⟨10, 0, 4, 4⟩] 2 ⟨0, 0, 0, 0⟩ = some (1, ⟨-6, -4, 16, 12⟩) ∧
      ¬ (⟨-6, -4, 16, 12⟩ : CvRect).inside (cvRect 0 0 FRAME_WIDTH FRAME_HEIGHT)) ∧
    (∀ (s : State) (f : Frame) (e : CvRect), s.stage = STAGE_INIT →
      is_eye_pair f.comp f.nc s.eye = some (1, e) →
      ∃ s1, init_stage s f = some s1 ∧ s1.stage = STAGE_TRACKING ∧ s1.eye = e) ∧
    (∀ (r1 : CvRect) (rest : List CvRect) (num : Int) (eye e : CvRect) (W H : Int),
      is_eye_pair (r1 :: rest) num eye = some (1, e) →
      (e.inside (cvRect 0 0 W H) ↔
        (8 ≤ r1.x + Int.tdiv r1.width 2 ∧ r1.x + Int.tdiv r1.width 2 ≤ W - 8) ∧
        (6 ≤ r1.y + Int.tdiv r1.height 2 ∧ r1.y + Int.tdiv r1.height 2 ≤ H - 6))) := by
  refine ⟨⟨by decide, by decide, by decide, by decide⟩, ?_, ?_⟩
  · intro s f e hs he
    exact ⟨_, init_stage_accept s f e hs he, rfl, rfl⟩
  · intro r1 rest num eye e W H he
    obtain ⟨r1', r2, rest', hc, -, rfl⟩ := is_eye_pair_eq_one _ _ _ _ he
    obtain ⟨rfl, -⟩ := List.cons.inj hc
    simp only [CvRect.inside, cvRect]
    constructor
    · rintro ⟨h1, h2, h3, h4⟩
      refine ⟨⟨?_, ?_⟩, ?_, ?_⟩ <;> omega
    · rintro ⟨⟨h1, h2⟩, h3, h4⟩
      refine ⟨?_, ?_, ?_, ?_⟩ <;> omega

/-- An instance of the general part of C10: in a 240 x 180 frame the
accepted pair (10,10,20,30), (70,10,20,30) has centroid (20,25) and its eye
rectangle (12,19,16,12) lies inside the frame. -/
theorem is_eye_pair_not_clamped_witness :
    (⟨12, 19, 16, 12⟩ : CvRect).inside (cvRect 0 0 240 180) ↔
      (8 ≤ (10 : Int) + Int.tdiv 20 2 ∧ (10 : Int) + Int.tdiv 20 2 ≤ 240 - 8) ∧
      (6 ≤ (10 : Int) + Int.tdiv 30 2 ∧ (10 : Int) + Int.tdiv 30 2 ≤ 180 - 6) :=
  is_eye_pair_not_clamped.2.2 ⟨10, 10, 20, 30⟩ [⟨70, 10, 20, 30⟩] 2 ⟨0, 0, 0, 0⟩
    ⟨12, 19, 16, 12⟩ 240 180 (by decide)

/-! ## is_blink -/

/-- The return value of `is_blink` is 0 or 1. -/
theorem is_blink_ne_one (comp : List CvRect) (num : Int) (window eye : CvRect)
    (h : is_blink comp num window eye ≠ 1) : is_blink comp num window eye = 0 := by
  cases comp with
  | nil => rfl
  | cons r1 rest =>
    simp only [is_blink] at h ⊢
    split_ifs at h ⊢ <;> first | rfl | exact absurd rfl h

/-- C3: `is_blink` returns 1 exactly when there is a first component, the count
is 1, its bounding rectangle lies within the search window (edges may
coincide) and the centroid of the eye rectangle lies strictly inside the
bounding rectangle; in every other case it returns 0, in particular when the
centroid is on an edge of the bounding rectangle. -/
theorem is_blink_eq_one_iff (comp : List CvRect) (num : Int) (window eye : CvRect) :
    (is_blink comp num window eye = 1 ↔
      ∃ r1 rest, comp = r1 :: rest ∧ num = 1 ∧
        (window.x ≤ r1.x ∧ window.y ≤ r1.y ∧
          r1.x + r1.width ≤ window.x + window.width ∧
          r1.y + r1.height ≤ window.y + window.height) ∧
        (r1.x < eye.x + Int.tdiv eye.width 2 ∧ eye.x + Int.tdiv eye.width 2 < r1.x + r1.width) ∧
        (r1.y < eye.y + Int.tdiv eye.height 2 ∧
          eye.y + Int.tdiv eye.height 2 < r1.y + r1.height)) ∧
    (is_blink comp num window eye ≠ 1 → is_blink comp num window eye = 0) ∧
    (∀ r1 rest, comp = r1 :: rest →
      (eye.x + Int.tdiv eye.width 2 = r1.x ∨ eye.x + Int.tdiv eye.width 2 = r1.x + r1.width ∨
        eye.y + Int.tdiv eye.height 2 = r1.y ∨
        eye.y + Int.tdiv eye.height 2 = r1.y + r1.height) →
      is_blink comp num window eye = 0) := by
  cases comp with
  | nil => simp [is_blink]
  | cons r1 rest =>
    refine ⟨?_, ?_, ?_⟩
    · simp only [is_blink, cvPoint, List.cons.injEq]
      constructor
      · intro h
        split_ifs at h with h1 h2 h3 h4 h5 h6 h7
        all_goals first | (exact absurd h (by decide)) | skip
        refine ⟨r1, rest, ⟨rfl, rfl⟩, ?_, ?_, ?_, ?_⟩
        · simpa using h1
        · omega
        · omega
        · omega
      · rintro ⟨r, t, ⟨rfl, rfl⟩, hn, ⟨c1, c2, c3, c4⟩, ⟨x1, x2⟩, y1, y2⟩
        rw [if_neg (by simpa using hn), if_neg (by omega), if_neg (by omega), if_neg (by omega),
          if_neg (by omega), if_neg (by omega), if_neg (by omega)]
    · exact is_blink_ne_one _ _ _ _
    · intro r t hc hedge
      obtain ⟨rfl, rfl⟩ := List.cons.inj hc
      simp only [is_blink, cvPoint]
      split_ifs <;> first | rfl | omega

/-- An instance of C3: the eye rectangle (102,84,16,12) has centroid (110,90),
which is on the right edge of the blob (100,85,10,10), so `is_blink`
returns 0. -/
theorem is_blink_eq_one_iff_witness :
    is_blink [⟨100, 85, 10, 10⟩] 1 ⟨100, 80, 32, 24⟩ ⟨102, 84, 16, 12⟩ = 0 :=
  (is_blink_eq_one_iff [⟨100, 85, 10, 10⟩] 1 ⟨100, 80, 32, 24⟩ ⟨102, 84, 16, 12⟩).2.2
    ⟨100, 85, 10, 10⟩ [] rfl (Or.inr (Or.inl (by decide)))

/-- C4 as amended: a single blob whose bounding rectangle exceeds the search
window on some side (`r1.x < window.x`, `r1.y < window.y`,
`r1.x + r1.width > window.x + window.width` or
`r1.y + r1.height > window.y + window.height`) makes `is_blink` return 0,
whatever the eye rectangle is. -/
theorem is_blink_rejects_outside_window (r1 : CvRect) (rest : List CvRect) (num : Int)
    (window eye : CvRect)
    (h : r1.x < window.x ∨ r1.y < window.y ∨
      r1.x + r1.width > window.x + window.width ∨
      r1.y + r1.height > window.y + window.height) :
    is_blink (r1 :: rest) num window eye = 0 := by
  simp only [is_blink, cvPoint]
  split_ifs <;> first | rfl | omega

/-- A blob one pixel beyond the left edge of the window is rejected although
the eye centroid is strictly inside it. -/
theorem is_blink_rejects_outside_window_witness :
    is_blink [⟨99, 85, 11, 10⟩] 1 ⟨100, 80, 32, 24⟩ ⟨100, 84, 16, 12⟩ = 0 :=
  is_blink_rejects_outside_window ⟨99, 85, 11, 10⟩ [] 1 ⟨100, 80, 32, 24⟩ ⟨100, 84, 16, 12⟩
    (Or.inl (by decide))

/-- Against C4 as stated: the single blob (100,85,10,10) touches the left edge
of the search window (100,80,32,24), and with the eye rectangle (100,84,16,12),
whose centroid (108,90) is strictly inside the blob, `is_blink` returns 1. -/
theorem is_blink_touching_window_counterexample :
    (⟨100, 85, 10, 10⟩ : CvRect).x ≤ (⟨100, 80, 32, 24⟩ : CvRect).x ∧
    is_blink [⟨100, 85, 10, 10⟩] 1 ⟨100, 80, 32, 24⟩ ⟨100, 84, 16, 12⟩ = 1 := by
  decide

/-! ## locate_eye -/

/-- The search window in closed form: each coordinate of the window centred on
the centroid is clamped below at 0 and then above at the image size. -/
theorem search_window_eq (img : IplImage) (eye : CvRect) :
    search_window img eye =
      ⟨if (if eye.x + Int.tdiv eye.width 2 - 16 < 0 then 0
            else eye.x + Int.tdiv eye.width 2 - 16) + 32 > img.width
        then img.width - 32
        else (if eye.x + Int.tdiv eye.width 2 - 16 < 0 then 0
              else eye.x + Int.tdiv eye.width 2 - 16),
       if (if eye.y + Int.tdiv eye.height 2 - 12 < 0 then 0
            else eye.y + Int.tdiv eye.height 2 - 12) + 24 > img.height
        then img.height - 24
        else (if eye.y + Int.tdiv eye.height 2 - 12 < 0 then 0
              else eye.y + Int.tdiv eye.height 2 - 12),
       32, 24⟩ := by
  have e16 : Int.tdiv WIN_WIDTH 2 = 16 := by decide
  have e12 : Int.tdiv WIN_HEIGHT 2 = 12 := by decide
  have w32 : WIN_WIDTH = 32 := by decide
  have h24 : WIN_HEIGHT = 24 := by decide
  simp only [search_window, cvPoint, cvRect, e16, e12]
  simp only [w32, h24]
  generalize eye.x + Int.tdiv eye.width 2 - 16 = a
  generalize eye.y + Int.tdiv eye.height 2 - 12 = b
  split_ifs <;> rfl

/-- Size and position of the search window on an image at least 32 x 24. -/
theorem search_window_bounds (img : IplImage) (eye : CvRect)
    (hw : 32 ≤ img.width) (hh : 24 ≤ img.height) :
    (search_window img eye).width = 32 ∧ (search_window img eye).height = 24 ∧
    0 ≤ (search_window img eye).x ∧ 0 ≤ (search_window img eye).y ∧
    (search_window img eye).x + (search_window img eye).width ≤ img.width ∧
    (search_window img eye).y + (search_window img eye).height ≤ img.height := by
  rw [search_window_eq]
  simp only []
  refine ⟨trivial, trivial, ?_, ?_, ?_, ?_⟩
  · split_ifs <;> omega
  · split_ifs <;> omega
  · split_ifs <;> omega
  · split_ifs <;> omega

/-- C5: on an image at least WIN_WIDTH x WIN_HEIGHT = 32 x 24 and for any
previous eye rectangle, the search window computed by `locate_eye` (and
returned by it on acceptance) has size 32 x 24 and lies within the image; in
each direction in which the window centred on the centroid of the eye
rectangle needs no clamping, it is that centred window. -/
theorem search_window_within_image (img : IplImage) (eye : CvRect)
    (hw : WIN_WIDTH ≤ img.width) (hh : WIN_HEIGHT ≤ img.height) :
    WIN_WIDTH = 32 ∧ WIN_HEIGHT = 24 ∧
    (search_window img eye).width = 32 ∧ (search_window img eye).height = 24 ∧
    0 ≤ (search_window img eye).x ∧ 0 ≤ (search_window img eye).y ∧
    (search_window img eye).x + (search_window img eye).width ≤ img.width ∧
    (search_window img eye).y + (search_window img eye).height ≤ img.height ∧
    (0 ≤ eye.x + Int.tdiv eye.width 2 - 16 → eye.x + Int.tdiv eye.width 2 + 16 ≤ img.width →
      (search_window img eye).x = eye.x + Int.tdiv eye.width 2 - 16) ∧
    (0 ≤ eye.y + Int.tdiv eye.height 2 - 12 → eye.y + Int.tdiv eye.height 2 + 12 ≤ img.height →
      (search_window img eye).y = eye.y + Int.tdiv eye.height 2 - 12) ∧
    (∀ (minval : ℚ) (minloc : CvPoint) (window : CvRect), minval ≤ TM_THRESHOLD →
      (locate_eye img minval minloc window eye).1 = 1 ∧
      (locate_eye img minval minloc window eye).2.1 = search_window img eye) := by
  have w32 : WIN_WIDTH = 32 := by decide
  have h24 : WIN_HEIGHT = 24 := by decide
  rw [w32] at hw
  rw [h24] at hh
  refine ⟨w32, h24, ?_⟩
  have hloc : ∀ (minval : ℚ) (minloc : CvPoint) (window : CvRect), minval ≤ TM_THRESHOLD →
      (locate_eye img minval minloc window eye).1 = 1 ∧
      (locate_eye img minval minloc window eye).2.1 = search_window img eye := by
    intro minval minloc window hacc
    simp [locate_eye, not_lt.mpr hacc]
  obtain ⟨b1, b2, b3, b4, b5, b6⟩ := search_window_bounds img eye hw hh
  refine ⟨b1, b2, b3, b4, b5, b6, ?_, ?_, hloc⟩
  all_goals rw [search_window_eq]
  all_goals simp only []
  · intro h0 h1
    split_ifs <;> omega
  · intro h0 h1
    split_ifs <;> omega

/-- An instance of C5 at the bottom-right corner of a 240 x 180 image: the eye
rectangle (236,175,16,12) has centroid (244,181), and the clamped window
(208,156,32,24) ends exactly at the image corner. -/
theorem search_window_within_image_witness :
    search_window ⟨240, 180⟩ ⟨236, 175, 16, 12⟩ = ⟨208, 156, 32, 24⟩ ∧
    (search_window ⟨240, 180⟩ ⟨236, 175, 16, 12⟩).x +
      (search_window ⟨240, 180⟩ ⟨236, 175, 16, 12⟩).width ≤ 240 ∧
    (search_window ⟨240, 180⟩ ⟨236, 175, 16, 12⟩).y +
      (search_window ⟨240, 180⟩ ⟨236, 175, 16, 12⟩).height ≤ 180 :=
  ⟨by decide,
    (search_window_within_image ⟨240, 180⟩ ⟨236, 175, 16, 12⟩ (by decide)
      (by decide)).2.2.2.2.2.2.1,
    (search_window_within_image ⟨240, 180⟩ ⟨236, 175, 16, 12⟩ (by decide)
      (by decide)).2.2.2.2.2.2.2.1⟩

/-- The return value of `locate_eye` is decided by the score alone. -/
theorem locate_eye_found_iff (img : IplImage) (minval : ℚ) (minloc : CvPoint)
    (window eye : CvRect) :
    ((locate_eye img minval minloc window eye).1 = 1 ↔ minval ≤ TM_THRESHOLD) ∧
    ((locate_eye img minval minloc window eye).1 = 0 ↔ minval > TM_THRESHOLD) := by
  by_cases h : minval > TM_THRESHOLD
  · simp [locate_eye, h, not_le.mpr h]
  · simp [locate_eye, h, not_lt.mp h]

/-- A rejecting call of `locate_eye` leaves window and eye rectangle as they
were. -/
theorem locate_eye_reject (img : IplImage) (minval : ℚ) (minloc : CvPoint)
    (window eye : CvRect) (h : minval > TM_THRESHOLD) :
    locate_eye img minval minloc window eye = (0, window, eye) := by
  simp [locate_eye, h]

/-- An accepting call of `locate_eye`. -/
theorem locate_eye_accept (img : IplImage) (minval : ℚ) (minloc : CvPoint)
    (window eye : CvRect) (h : minval ≤ TM_THRESHOLD) :
    locate_eye img minval minloc window eye =
      (1, search_window img eye,
        ⟨(search_window img eye).x + minloc.x, (search_window img eye).y + minloc.y, 16, 12⟩) := by
  simp [locate_eye, not_lt.mpr h, cvRect, TPL_WIDTH, TPL_HEIGHT]

/-! ## The loop of main -/

theorem run_append (s : State) (p q : List Frame) :
    run s (p ++ q) = (run s p).bind (fun s1 => run s1 q) := by
  induction p generalizing s with
  | nil => rfl
  | cons f p ih =>
    simp only [List.cons_append, run]
    cases loop_body s f with
    | none => rfl
    | some s1 => exact ih s1

/-- The stage, transition count and key after lines 108-126, for a state that
is in stage TRACKING at line 108. -/
theorem tracking_stage_of_tracking (s : State) (f : Frame) (hs : s.stage = STAGE_TRACKING) :
    (tracking_stage s f).entered = s.entered ∧
    (f.minval ≤ TM_THRESHOLD ∧ s.key ≠ KEY_r → (tracking_stage s f).stage = STAGE_TRACKING) ∧
    (f.minval > TM_THRESHOLD ∨ s.key = KEY_r → (tracking_stage s f).stage = STAGE_INIT) := by
  refine ⟨?_, ?_, ?_⟩
  · simp [tracking_stage, hs]
  · rintro ⟨hm, hk⟩
    simp [tracking_stage, hs, locate_eye_accept _ _ _ _ _ hm, hk]
  · rintro (hm | hk)
    · simp [tracking_stage, hs, locate_eye_reject _ _ _ _ _ hm]
    · simp [tracking_stage, hs, hk]

/-- One iteration that starts in stage TRACKING. -/
theorem loop_body_of_tracking (s : State) (f : Frame) (hs : s.stage = STAGE_TRACKING) :
    ∃ s1, loop_body s f = some s1 ∧ s1.key = f.key ∧ s1.entered = s.entered ∧
      (f.minval ≤ TM_THRESHOLD ∧ s.key ≠ KEY_r → s1.stage = STAGE_TRACKING) ∧
      (f.minval > TM_THRESHOLD ∨ s.key = KEY_r → s1.stage = STAGE_INIT) := by
  have hne : s.stage ≠ STAGE_INIT := by rw [hs]; decide
  have hi : init_stage s f = some s := by
    simp [init_stage, hne]
  obtain ⟨h1, h2, h3⟩ := tracking_stage_of_tracking s f hs
  exact ⟨{ tracking_stage s f with key := f.key }, by rw [loop_body, hi], rfl, h1, h2, h3⟩

/-- One iteration that starts in stage INIT on a frame whose blobs
`is_eye_pair` accepts. -/
theorem loop_body_of_init (s : State) (f : Frame) (e : CvRect) (hs : s.stage = STAGE_INIT)
    (he : is_eye_pair f.comp f.nc s.eye = some (1, e)) :
    ∃ s1, loop_body s f = some s1 ∧ s1.key = f.key ∧ s1.entered = s.entered + 1 ∧
      (f.minval ≤ TM_THRESHOLD ∧ s.key ≠ KEY_r → s1.stage = STAGE_TRACKING) ∧
      (f.minval > TM_THRESHOLD ∨ s.key = KEY_r → s1.stage = STAGE_INIT) := by
  obtain ⟨h1, h2, h3⟩ := tracking_stage_of_tracking
    { s with window := cvRect 0 0 f.img.width f.img.height, eye := e, stage := STAGE_TRACKING,
             text_delay := 10, entered := s.entered + 1 } f rfl
  exact ⟨{ tracking_stage
            { s with window := cvRect 0 0 f.img.width f.img.height, eye := e,
                     stage := STAGE_TRACKING, text_delay := 10, entered := s.entered + 1 } f
           with key := f.key },
    by rw [loop_body, init_stage_accept s f e hs he], rfl, h1, h2, h3⟩

/-- Iterations that all keep tracking leave the stage at TRACKING. -/
theorem run_of_tracked (p : List Frame) (s : State) (hs : s.stage = STAGE_TRACKING)
    (ht : Tracked s.key p) :
    ∃ s1, run s p = some s1 ∧ s1.stage = STAGE_TRACKING ∧ s1.entered = s.entered ∧
      s1.key = key_after s.key p := by
  induction p generalizing s with
  | nil => exact ⟨s, rfl, hs, rfl, rfl⟩
  | cons f p ih =>
    obtain ⟨hm, hk, ht1⟩ := ht
    obtain ⟨s1, hb, hkey, hent, hgood, -⟩ := loop_body_of_tracking s f hs
    rw [← hkey] at ht1
    obtain ⟨s2, hr, hst, hent2, hkey2⟩ := ih s1 (hgood ⟨hm, hk⟩) ht1
    refine ⟨s2, by simp only [run, hb, hr], hst, by rw [hent2, hent], ?_⟩
    rw [hkey2, hkey]
    rfl

theorem tracking_stage_eye_size (s : State) (f : Frame) (h : eye_size_ok s) :
    eye_size_ok (tracking_stage s f) := by
  by_cases hs : s.stage = STAGE_TRACKING
  · by_cases hm : f.minval > TM_THRESHOLD
    · intro hst
      have : (tracking_stage s f).stage = STAGE_INIT :=
        (tracking_stage_of_tracking s f hs).2.2 (Or.inl hm)
      rw [this] at hst
      exact absurd hst (by decide)
    · intro _
      simp [tracking_stage, hs, locate_eye_accept _ _ _ _ _ (not_lt.mp hm), TPL_WIDTH,
        TPL_HEIGHT]
  · simpa [tracking_stage, hs] using h

theorem init_stage_eye_size (s s1 : State) (f : Frame) (h : eye_size_ok s)
    (h1 : init_stage s f = some s1) : eye_size_ok s1 := by
  by_cases hs : s.stage = STAGE_INIT
  · cases hp : is_eye_pair f.comp f.nc s.eye with
    | none => simp [init_stage, hs, hp] at h1
    | some r =>
      obtain ⟨ret, e⟩ := r
      rcases is_eye_pair_ret _ _ _ _ _ hp with ⟨rfl, rfl⟩ | rfl
      · simp only [init_stage, hs, hp, if_true, ne_eq, not_true_eq_false, if_false,
          Option.some.injEq] at h1
        subst h1
        intro hst
        simp only [hs] at hst
        exact absurd hst (by decide)
      · obtain ⟨r1, r2, rest, -, -, rfl⟩ := is_eye_pair_eq_one _ _ _ _ hp
        rw [init_stage_accept s f _ hs hp, Option.some.injEq] at h1
        subst h1
        intro _
        exact ⟨rfl, rfl⟩
  · simp only [init_stage, hs, if_false, Option.some.injEq] at h1
    subst h1
    exact h

theorem loop_body_eye_size (s s1 : State) (f : Frame) (h : eye_size_ok s)
    (h1 : loop_body s f = some s1) : eye_size_ok s1 := by
  unfold loop_body at h1
  cases hi : init_stage s f with
  | none => simp [hi] at h1
  | some s2 =>
    simp only [hi, Option.some.injEq] at h1
    subst h1
    exact tracking_stage_eye_size s2 f (init_stage_eye_size s s2 f h hi)

theorem run_eye_size (fs : List Frame) (s s1 : State) (h : eye_size_ok s)
    (h1 : run s fs = some s1) : eye_size_ok s1 := by
  induction fs generalizing s with
  | nil =>
    simp only [run, Option.some.injEq] at h1
    subst h1
    exact h
  | cons f fs ih =>
    simp only [run] at h1
    cases hb : loop_body s f with
    | none => simp [hb] at h1
    | some s2 =>
      simp only [hb] at h1
      exact ih s2 (loop_body_eye_size s s2 f h hb) h1

/-- C8: when `locate_eye` accepts on an image at least 32 x 24, with the match
location inside the result image of the matching
(`0 ≤ minloc.x ≤ WIN_WIDTH - TPL_WIDTH`, `0 ≤ minloc.y ≤ WIN_HEIGHT - TPL_HEIGHT`),
the score is at most TM_THRESHOLD, the returned eye rectangle is
`(win.x + minloc.x, win.y + minloc.y, 16, 12)` for the returned window `win`,
and it lies inside that window and inside the image.  The eye rectangle stored
by an accepting `is_eye_pair` is 16 x 12 too, so in every run of the loop from
stage INIT the eye rectangle is 16 x 12 whenever the stage is TRACKING. -/
theorem locate_eye_eye_rect (img : IplImage) (minval : ℚ) (minloc : CvPoint)
    (window eye : CvRect) (hw : 32 ≤ img.width) (hh : 24 ≤ img.height)
    (hx0 : 0 ≤ minloc.x) (hx1 : minloc.x ≤ WIN_WIDTH - TPL_WIDTH)
    (hy0 : 0 ≤ minloc.y) (hy1 : minloc.y ≤ WIN_HEIGHT - TPL_HEIGHT)
    (hacc : (locate_eye img minval minloc window eye).1 = 1) :
    minval ≤ TM_THRESHOLD ∧
    (locate_eye img minval minloc window eye).2.1 = search_window img eye ∧
    (locate_eye img minval minloc window eye).2.2 =
      ⟨(search_window img eye).x + minloc.x, (search_window img eye).y + minloc.y, 16, 12⟩ ∧
    TPL_WIDTH = 16 ∧ TPL_HEIGHT = 12 ∧
    (locate_eye img minval minloc window eye).2.2.inside
      (locate_eye img minval minloc window eye).2.1 ∧
    (locate_eye img minval minloc window eye).2.2.inside (cvRect 0 0 img.width img.height) ∧
    (∀ (comp : List CvRect) (num : Int) (eye0 e0 : CvRect),
      is_eye_pair comp num eye0 = some (1, e0) → e0.width = 16 ∧ e0.height = 12) ∧
    (∀ (s s1 : State) (fs : List Frame), s.stage = STAGE_INIT → run s fs = some s1 →
      s1.stage = STAGE_TRACKING → s1.eye.width = 16 ∧ s1.eye.height = 12) := by
  have hm : minval ≤ TM_THRESHOLD := (locate_eye_found_iff img minval minloc window eye).1.1 hacc
  have hd1 : WIN_WIDTH - TPL_WIDTH = 16 := by decide
  have hd2 : WIN_HEIGHT - TPL_HEIGHT = 12 := by decide
  rw [hd1] at hx1
  rw [hd2] at hy1
  obtain ⟨w1, w2, w3, w4, w5, w6⟩ := search_window_bounds img eye hw hh
  rw [locate_eye_accept img minval minloc window eye hm]
  refine ⟨hm, rfl, rfl, rfl, rfl, ?_, ?_, ?_, ?_⟩
  · simp only [CvRect.inside]
    refine ⟨?_, ?_, ?_, ?_⟩ <;> omega
  · simp only [CvRect.inside, cvRect]
    refine ⟨?_, ?_, ?_, ?_⟩ <;> omega
  · intro comp num eye0 e0 he
    obtain ⟨r1, r2, rest, -, -, rfl⟩ := is_eye_pair_eq_one _ _ _ _ he
    exact ⟨rfl, rfl⟩
  · intro s s1 fs hs hr hst
    have h0 : eye_size_ok s := by
      intro h
      rw [hs] at h
      exact absurd h (by decide)
    exact run_eye_size fs s s1 h0 hr hst

/-- An accepting step of C8 in a 240 x 180 image: from the eye rectangle
(12,19,16,12) the window is (4,13,32,24), and the best match at (8,6) gives the
eye rectangle (12,19,16,12) again. -/
theorem locate_eye_eye_rect_witness :
    (locate_eye ⟨240, 180⟩ 0 ⟨8, 6⟩ ⟨0, 0, 240, 180⟩ ⟨12, 19, 16, 12⟩).2.2 =
      ⟨(search_window ⟨240, 180⟩ ⟨12, 19, 16, 12⟩).x + 8,
        (search_window ⟨240, 180⟩ ⟨12, 19, 16, 12⟩).y + 6, 16, 12⟩ ∧
    search_window ⟨240, 180⟩ ⟨12, 19, 16, 12⟩ = ⟨4, 13, 32, 24⟩ :=
  ⟨(locate_eye_eye_rect ⟨240, 180⟩ 0 ⟨8, 6⟩ ⟨0, 0, 240, 180⟩ ⟨12, 19, 16, 12⟩
      (by decide) (by decide) (by decide) (by decide) (by decide) (by decide)
      (by norm_num [locate_eye, TM_THRESHOLD])).2.2.1,
    by decide⟩

/-- C6: start in stage INIT and feed the loop a sequence of iterations whose
first frame satisfies `is_eye_pair`; `p ++ [g]` is any non-empty prefix of it.
If every iteration of `p` kept tracking (`locate_eye` found, key not `'r'`),
then the iterations through `g` all run, line 104 has been executed exactly
once, and the stage after the iteration on `g` is TRACKING when that iteration
keeps tracking too, and INIT when in it `locate_eye` reports not found or the
key is `'r'`. -/
theorem main_stage_machine (s0 : State) (p : List Frame) (g : Frame) (e : CvRect)
    (hinit : s0.stage = STAGE_INIT)
    (hpair : ∃ f, (p ++ [g]).head? = some f ∧ is_eye_pair f.comp f.nc s0.eye = some (1, e))
    (htr : Tracked s0.key p) :
    ∃ s, run s0 (p ++ [g]) = some s ∧ s.entered = s0.entered + 1 ∧
      (g.minval ≤ TM_THRESHOLD ∧ key_after s0.key p ≠ KEY_r → s.stage = STAGE_TRACKING) ∧
      (g.minval > TM_THRESHOLD ∨ key_after s0.key p = KEY_r → s.stage = STAGE_INIT) := by
  obtain ⟨f, hf, he⟩ := hpair
  cases p with
  | nil =>
    simp only [List.nil_append, List.head?_cons, Option.some.injEq] at hf
    subst hf
    obtain ⟨s1, hb, -, hent, hgood, hbad⟩ := loop_body_of_init s0 g e hinit he
    exact ⟨s1, by simp only [List.nil_append, run, hb], hent, hgood, hbad⟩
  | cons f1 p1 =>
    simp only [List.cons_append, List.head?_cons, Option.some.injEq] at hf
    subst hf
    obtain ⟨hm, hk, ht1⟩ := htr
    obtain ⟨s1, hb, hkey, hent, hgood, -⟩ := loop_body_of_init s0 f1 e hinit he
    rw [← hkey] at ht1
    obtain ⟨s2, hr, hst, hent2, hkey2⟩ := run_of_tracked p1 s1 (hgood ⟨hm, hk⟩) ht1
    obtain ⟨s3, hb3, -, hent3, hgood3, hbad3⟩ := loop_body_of_tracking s2 g hst
    have hka : key_after s0.key (f1 :: p1) = s2.key := by
      rw [hkey2, hkey]
      rfl
    refine ⟨s3, ?_, by rw [hent3, hent2, hent], ?_, ?_⟩
    · rw [List.cons_append]
      simp only [run, hb]
      rw [run_append, hr]
      simp only [Option.bind, run, hb3]
    · rw [hka]
      exact hgood3
    · rw [hka]
      exact hbad3

/-- A run for C6: the first frame shows the eye pair (10,10,20,30),
(70,10,20,30) and a good match, so the stage is TRACKING after it; in the second
frame the match fails (score 1), so the stage is INIT after it. -/
theorem main_stage_machine_witness :
    (∃ s, run ⟨STAGE_INIT, ⟨0, 0, 0, 0⟩, ⟨0, 0, 0, 0⟩, 0, 0, 0, 0⟩
        ([] ++ [⟨⟨240, 180⟩, [⟨10, 10, 20, 30⟩, ⟨70, 10, 20, 30⟩], 2, 0, ⟨8, 6⟩, -1⟩]) = some s ∧
      s.entered = 0 + 1 ∧ s.stage = STAGE_TRACKING) ∧
    (∃ s, run ⟨STAGE_INIT, ⟨0, 0, 0, 0⟩, ⟨0, 0, 0, 0⟩, 0, 0, 0, 0⟩
        ([⟨⟨240, 180⟩, [⟨10, 10, 20, 30⟩, ⟨70, 10, 20, 30⟩], 2, 0, ⟨8, 6⟩, -1⟩] ++
          [⟨⟨240, 180⟩, [], 0, 1, ⟨0, 0⟩, -1⟩]) = some s ∧
      s.entered = 0 + 1 ∧ s.stage = STAGE_INIT) := by
  constructor
  · obtain ⟨s, h1, h2, h3, -⟩ := main_stage_machine
      ⟨STAGE_INIT, ⟨0, 0, 0, 0⟩, ⟨0, 0, 0, 0⟩, 0, 0, 0, 0⟩ []
      ⟨⟨240, 180⟩, [⟨10, 10, 20, 30⟩, ⟨70, 10, 20, 30⟩], 2, 0, ⟨8, 6⟩, -1⟩ ⟨12, 19, 16, 12⟩
      rfl ⟨_, rfl, by decide⟩ trivial
    exact ⟨s, h1, h2, h3 ⟨by norm_num [TM_THRESHOLD], by decide⟩⟩
  · obtain ⟨s, h1, h2, -, h4⟩ := main_stage_machine
      ⟨STAGE_INIT, ⟨0, 0, 0, 0⟩, ⟨0, 0, 0, 0⟩, 0, 0, 0, 0⟩
      [⟨⟨240, 180⟩, [⟨10, 10, 20, 30⟩, ⟨70, 10, 20, 30⟩], 2, 0, ⟨8, 6⟩, -1⟩]
      ⟨⟨240, 180⟩, [], 0, 1, ⟨0, 0⟩, -1⟩ ⟨12, 19, 16, 12⟩
      rfl ⟨_, rfl, by decide⟩ ⟨by norm_num [TM_THRESHOLD], by decide, trivial⟩
    exact ⟨s, h1, h2, h4 (Or.inl (by norm_num [TM_THRESHOLD]))⟩

/-- C7 as amended: the blink classifier is consulted in every TRACKING
iteration, found or not.  In an iteration that starts in stage TRACKING and in
which `locate_eye` reports not found, the stage goes back to INIT, window and
eye rectangle keep their previous values, and a blink event (text countdown
reset to 10, then counted down to 9 by the drawing macro, and one call of the
external command) occurs exactly when `is_blink` accepts the blobs of the frame
against that previous window and eye rectangle. -/
theorem tracking_lost_blink (s : State) (f : Frame) (hs : s.stage = STAGE_TRACKING)
    (hlost : (locate_eye f.img f.minval f.minloc s.window s.eye).1 = 0) :
    ∃ s1, loop_body s f = some s1 ∧ s1.stage = STAGE_INIT ∧
      s1.window = s.window ∧ s1.eye = s.eye ∧
      (is_blink f.comp f.nc s.window s.eye = 1 →
        s1.notified = s.notified + 1 ∧ s1.text_delay = 9) ∧
      (is_blink f.comp f.nc s.window s.eye ≠ 1 →
        s1.notified = s.notified ∧ s1.text_delay = DRAW_TEXT s.text_delay) := by
  have hm : f.minval > TM_THRESHOLD := (locate_eye_found_iff _ _ _ _ _).2.1 hlost
  have hne : s.stage ≠ STAGE_INIT := by rw [hs]; decide
  have hi : init_stage s f = some s := by simp [init_stage, hne]
  have hl := locate_eye_reject f.img f.minval f.minloc s.window s.eye hm
  refine ⟨{ tracking_stage s f with key := f.key }, by rw [loop_body, hi], ?_, ?_, ?_, ?_, ?_⟩
  · exact (tracking_stage_of_tracking s f hs).2.2 (Or.inl hm)
  · simp [tracking_stage, hs, hl]
  · simp [tracking_stage, hs, hl]
  · intro hb
    simp [tracking_stage, hs, hl, hb, DRAW_TEXT]
  · intro hb
    have h0 : is_blink f.comp f.nc s.window s.eye = 0 := is_blink_ne_one _ _ _ _ hb
    simp [tracking_stage, hs, hl, h0]

/-- An iteration for the amended C7: tracking is lost (score 1) and the frame
has no blob, so no blink event occurs and the countdown goes from 3 to 2. -/
theorem tracking_lost_blink_witness :
    ∃ s1, loop_body ⟨STAGE_TRACKING, ⟨100, 80, 32, 24⟩, ⟨108, 86, 16, 12⟩, -1, 3, 1, 0⟩
        ⟨⟨240, 180⟩, [], 0, 1, ⟨0, 0⟩, -1⟩ = some s1 ∧
      s1.stage = STAGE_INIT ∧ s1.notified = 0 ∧ s1.text_delay = 2 := by
  obtain ⟨s1, h1, h2, -, -, -, h3⟩ := tracking_lost_blink
    ⟨STAGE_TRACKING, ⟨100, 80, 32, 24⟩, ⟨108, 86, 16, 12⟩, -1, 3, 1, 0⟩
    ⟨⟨240, 180⟩, [], 0, 1, ⟨0, 0⟩, -1⟩ rfl (by norm_num [locate_eye, TM_THRESHOLD])
  exact ⟨s1, h1, h2, h3 (by decide)⟩

/-- Against C7 as stated: the loop is in stage TRACKING with window
(100,80,32,24), eye rectangle (108,86,16,12) and countdown 0; the frame has the
single blob (110,85,12,10) and a matching score of 1.  `locate_eye` reports not
found, and yet the iteration counts a blink event: the external command is
called once and the countdown, reset to 10, is 9 after the drawing macro. -/
theorem tracking_lost_blink_counterexample :
    (locate_eye ⟨240, 180⟩ 1 ⟨0, 0⟩ ⟨100, 80, 32, 24⟩ ⟨108, 86, 16, 12⟩).1 = 0 ∧
    is_blink [⟨110, 85, 12, 10⟩] 1 ⟨100, 80, 32, 24⟩ ⟨108, 86, 16, 12⟩ = 1 ∧
    loop_body ⟨STAGE_TRACKING, ⟨100, 80, 32, 24⟩, ⟨108, 86, 16, 12⟩, -1, 0, 1, 0⟩
        ⟨⟨240, 180⟩, [⟨110, 85, 12, 10⟩], 1, 1, ⟨0, 0⟩, -1⟩ =
      some ⟨STAGE_INIT, ⟨100, 80, 32, 24⟩, ⟨108, 86, 16, 12⟩, -1, 9, 1, 1⟩ := by
  have hl : locate_eye ⟨240, 180⟩ 1 ⟨0, 0⟩ ⟨100, 80, 32, 24⟩ ⟨108, 86, 16, 12⟩ =
      (0, ⟨100, 80, 32, 24⟩, ⟨108, 86, 16, 12⟩) :=
    locate_eye_reject _ _ _ _ _ (by norm_num [TM_THRESHOLD])
  have hb : is_blink [⟨110, 85, 12, 10⟩] 1 ⟨100, 80, 32, 24⟩ ⟨108, 86, 16, 12⟩ = 1 := by decide
  refine ⟨by rw [hl], hb, ?_⟩
  have hi : init_stage ⟨STAGE_TRACKING, ⟨100, 80, 32, 24⟩, ⟨108, 86, 16, 12⟩, -1, 0, 1, 0⟩
      ⟨⟨240, 180⟩, [⟨110, 85, 12, 10⟩], 1, 1, ⟨0, 0⟩, -1⟩ =
      some ⟨STAGE_TRACKING, ⟨100, 80, 32, 24⟩, ⟨108, 86, 16, 12⟩, -1, 0, 1, 0⟩ := by decide
  rw [loop_body, hi]
  simp only [tracking_stage, hl, hb]
  decide

end Blink
